import Mathlib

/-! The HLO format converter (`xla/hlo/tools/convert.cc`)

A shallow embedding of `xla::tools::RealMain` and of `main`, followed by the
properties of the format-conversion contract.

The converter is a thin shim over collaborators that live in other files: the
flag parser of the two format enumerations, the module loader, the module
renderer, the protobuf serialisers and the file writer.  They are taken as
parameters (`Collaborators`, `Bootstrap`); every call the code makes to one of
them is recorded, in program order, in a trace of `Event`s, so that "what was
called, with what, and what was written" can be stated and proved.

A `std::string` is modelled by a Lean `String` (one character per `char`).
-/

namespace Convert

/-! ## Data model -/

/-- Modelled from the spec: the enumeration `InputFormat`, declared in
`functional_hlo_runner.h`; its enumerators are the four input encodings
`text | proto_text | proto_binary | snapshot_proto_binary`. -/
inductive InputFormat where
  | kText
  | kProtoText
  | kProtoBinary
  | kSnapshotProtoBinary
  deriving DecidableEq, Repr

/-- Modelled from the spec: the enumeration `OutputFormat`, declared in
`functional_hlo_runner.h`; its enumerators are the three output encodings
`text | proto_text | proto_binary`, the three `case` labels of the `switch`
in `RealMain`. -/
inductive OutputFormat where
  | kText
  | kProtoText
  | kProtoBinary
  deriving DecidableEq, Repr

/-- The content of a C++ object of enumeration type `α`.  After an assignment
it holds an enumerator (`named`).  An object that is declared without an
initialiser and read before any assignment holds an indeterminate value: any
enumerator, or a value that no enumerator names (`unnamed`). -/
inductive EnumObject (α : Type) where
  | named (a : α)
  | unnamed
  deriving DecidableEq, Repr

/-- An `absl::Status`: the raw numeric code and the message. -/
structure Status where
  raw_code : Int
  message : String
  deriving DecidableEq, Repr

/-- The canonical code `absl::StatusCode::kInternal`. -/
def kInternal : Int := 13

/-- `absl::Status::ok()`: the status is OK exactly when its code is `kOk = 0`. -/
def Status.ok (s : Status) : Bool := s.raw_code == 0

/-- `absl::OkStatus()`. -/
def OkStatus : Status := { raw_code := 0, message := "" }

/-- `absl::InternalError(message)`. -/
def InternalError (message : String) : Status :=
  { raw_code := kInternal, message := message }

/-- One observable step of a run: a call to a collaborator or a write to a
stream, with the arguments that matter. -/
inductive Event where
  | AbslParseFlagInput (text : String)
  | AbslParseFlagOutput (text : String)
  | LoadHloModuleAndArguments (input_file : String) (input_format : EnumObject InputFormat)
  | ToString
  | PrintToString
  | AppendToString
  | cout (data : String)
  | WriteStringToFile (fname : String) (data : String)
  | logError (message : String)
  | checkFailed (condition : String) (message : String)
  deriving DecidableEq, Repr

/-- The event is a call of the format parser. -/
def Event.isParse : Event → Bool
  | .AbslParseFlagInput _ => true
  | .AbslParseFlagOutput _ => true
  | _ => false

/-- The event is a call of the module loader. -/
def Event.isLoad : Event → Bool
  | .LoadHloModuleAndArguments _ _ => true
  | _ => false

/-- The event is one of the three encoder branches of the `switch`. -/
def Event.isEncoder : Event → Bool
  | .ToString => true
  | .PrintToString => true
  | .AppendToString => true
  | _ => false

/-- The event is a write to standard output. -/
def Event.isStdout : Event → Bool
  | .cout _ => true
  | _ => false

/-- The event is a file write. -/
def Event.isFileWrite : Event → Bool
  | .WriteStringToFile _ _ => true
  | _ => false

/-- The event is a write of the sink: to standard output or to a file. -/
def Event.isSink (ev : Event) : Bool := ev.isStdout || ev.isFileWrite

/-- The functions `RealMain` calls and that are defined elsewhere.
`AbslParseFlagInput` and `AbslParseFlagOutput` are the two overloads of
`AbslParseFlag` (`.ok f`: returned `true` and stored `f`; `.error e`: returned
`false` and set `*error = e`).  `LoadHloModuleAndArguments` yields the
`hlo_module` of the loaded pair or the failure status.  `PrintToString` is
`TextFormat::PrintToString` (`none`: returned `false`).  `SerializeAsString` is
the binary encoding of a message, the bytes that `AppendToString` appends. -/
structure Collaborators (Module Proto : Type) where
  AbslParseFlagInput : String → Except String InputFormat
  AbslParseFlagOutput : String → Except String OutputFormat
  LoadHloModuleAndArguments : String → EnumObject InputFormat → Except Status Module
  ToString : Module → String
  MakeHloProto : Module → Proto
  PrintToString : Proto → Option String
  SerializeAsString : Proto → String
  WriteStringToFile : String → String → Status

/-- The method `Message::AppendToString(&output)`: the binary encoding of the
message is appended to what `output` already holds. -/
def Collaborators.AppendToString {Module Proto : Type} (env : Collaborators Module Proto)
    (proto : Proto) (output : String) : String :=
  output ++ env.SerializeAsString proto

/-- What `RealMain` returns, with the trace of what it did. -/
structure Outcome where
  status : Status
  trace : List Event
  deriving DecidableEq, Repr

/-! ## `RealMain` -/

/-- Lines 41-46 of `RealMain`: the local `input_format` after the first `if`.
With an empty token the parser is not called and the local keeps the content
it was declared with (`input_format`, never initialised). -/
def resolveInputFormat {Module Proto : Type} (env : Collaborators Module Proto)
    (input_format : EnumObject InputFormat) (input_format_str : String) :
    Except String (EnumObject InputFormat) × List Event :=
  if input_format_str = "" then (.ok input_format, [])
  else
    match env.AbslParseFlagInput input_format_str with
    | .ok f => (.ok (.named f), [.AbslParseFlagInput input_format_str])
    | .error error => (.error error, [.AbslParseFlagInput input_format_str])

/-- Lines 47-52 of `RealMain`: the local `output_format` after the second `if`. -/
def resolveOutputFormat {Module Proto : Type} (env : Collaborators Module Proto)
    (output_format : EnumObject OutputFormat) (output_format_str : String) :
    Except String (EnumObject OutputFormat) × List Event :=
  if output_format_str = "" then (.ok output_format, [])
  else
    match env.AbslParseFlagOutput output_format_str with
    | .ok f => (.ok (.named f), [.AbslParseFlagOutput output_format_str])
    | .error error => (.error error, [.AbslParseFlagOutput output_format_str])

/-- Lines 58-70 of `RealMain`: the `switch` over `output_format`, starting from
the empty `result`.  There is no `default` label: a value that no enumerator
names runs no branch and leaves `result` empty. -/
def encode {Module Proto : Type} (env : Collaborators Module Proto)
    (module : Module) (output_format : EnumObject OutputFormat) :
    Except Status String × List Event :=
  let result : String := ""
  match output_format with
  | .named .kText => (.ok (env.ToString module), [.ToString])
  | .named .kProtoText =>
    match env.PrintToString (env.MakeHloProto module) with
    | none => (.error (InternalError "Proto to text conversion failed."), [.PrintToString])
    | some text => (.ok text, [.PrintToString])
  | .named .kProtoBinary =>
    (.ok (env.AppendToString (env.MakeHloProto module) result), [.AppendToString])
  | .unnamed => (.ok result, [])

/-- Lines 39-70 of `RealMain`: everything before the sink.  The value is the
status of an early `return`, or the string `result` as it stands at line 71.
`input_format` and `output_format` are the contents of the two locals as
declared at lines 39-40. -/
def RealMain_payload {Module Proto : Type} (env : Collaborators Module Proto)
    (input_format : EnumObject InputFormat) (output_format : EnumObject OutputFormat)
    (input_file input_format_str output_format_str : String) :
    Except Status String × List Event :=
  match resolveInputFormat env input_format input_format_str with
  | (.error error, t₁) => (.error (InternalError ("Failed parsing input format: " ++ error)), t₁)
  | (.ok input_format, t₁) =>
    match resolveOutputFormat env output_format output_format_str with
    | (.error error, t₂) =>
      (.error (InternalError ("Failed parsing output format: " ++ error)), t₁ ++ t₂)
    | (.ok output_format, t₂) =>
      match env.LoadHloModuleAndArguments input_file input_format with
      | .error st =>
        (.error st, t₁ ++ t₂ ++ [.LoadHloModuleAndArguments input_file input_format])
      | .ok module =>
        match encode env module output_format with
        | (result, t₃) =>
          (result, t₁ ++ t₂ ++ [.LoadHloModuleAndArguments input_file input_format] ++ t₃)

/-- The function `xla::tools::RealMain` (lines 35-77).  `input_format` and
`output_format` stand for the indeterminate contents of the two uninitialised
locals of lines 39-40; the four strings are the arguments of the C++ function. -/
def RealMain {Module Proto : Type} (env : Collaborators Module Proto)
    (input_format : EnumObject InputFormat) (output_format : EnumObject OutputFormat)
    (input_file output_file input_format_str output_format_str : String) : Outcome :=
  match RealMain_payload env input_format output_format input_file input_format_str
      output_format_str with
  | (.error st, tr) => { status := st, trace := tr }
  | (.ok result, tr) =>
    if output_file = "-" then
      { status := OkStatus, trace := tr ++ [.cout result] }
    else
      { status := env.WriteStringToFile output_file result,
        trace := tr ++ [.WriteStringToFile output_file result] }

/-- Lines 71-76 of `RealMain`: the one write the sink issues for `result`, to
standard output for the destination `"-"` and to the named file otherwise. -/
def sinkEvent (output_file result : String) : Event :=
  if output_file = "-" then .cout result else .WriteStringToFile output_file result

/-! ## `main` -/

/-- The constant `kUsage`. -/
def kUsage : String := "\nReads an HLO module and outputs it in the requested format.\n"

/-- A `tsl::Flag` of string type: its name and its usage text. -/
structure Flag where
  name : String
  usage_text : String
  deriving DecidableEq, Repr

/-- The values of the three flag variables of `main`. -/
structure FlagValues where
  output_file : String
  input_format : String
  output_format : String
  deriving DecidableEq, Repr

/-- Line 83: the initial values of the flag variables. -/
def initialFlagValues : FlagValues :=
  { output_file := "-", input_format := "text", output_format := "text" }

/-- Lines 84-91: the list of flags. -/
def flag_list : List Flag :=
  [ { name := "output", usage_text := "Output file. '-' for stdout." },
    { name := "input_format",
      usage_text := "Input format: text / proto_text / proto_binary / snapshot_proto_binary." },
    { name := "output_format",
      usage_text := "Output format: text / proto_text / proto_binary." } ]

/-- The process bootstrap `main` calls and that is defined elsewhere:
`tsl::Flags::Usage`, `tsl::Flags::Parse` (its result, the argument vector it
leaves and the flag variables it leaves) and `tsl::port::InitMain` (the
argument vector it leaves). -/
structure Bootstrap where
  Usage : String → List Flag → String
  Parse : List String → List Flag → FlagValues → Bool × List String × FlagValues
  InitMain : String → List String → List String

/-- How the process ends: `main` returns a value, or a failed `CHECK` aborts. -/
inductive Termination where
  | returned (code : Int)
  | aborted
  deriving DecidableEq, Repr

/-- Line 92: the usage text with the flags. -/
def kUsageAndFlags (sys : Bootstrap) (argv0 : String) : String :=
  kUsage ++ "\n" ++ sys.Usage argv0 flag_list

/-- Lines 98-103 of `main`: what follows the call of `RealMain`. -/
def finish (result : Outcome) : Termination × List Event :=
  if !result.status.ok then
    (.returned result.status.raw_code, result.trace ++ [.logError result.status.message])
  else
    (.returned result.status.raw_code, result.trace)

/-- The function `main` (lines 82-104), run on the argument vector
`argv0 :: args`. -/
def main {Module Proto : Type} (env : Collaborators Module Proto) (sys : Bootstrap)
    (input_format : EnumObject InputFormat) (output_format : EnumObject OutputFormat)
    (argv0 : String) (args : List String) : Termination × List Event :=
  let usage := kUsageAndFlags sys argv0
  match sys.Parse (argv0 :: args) flag_list initialFlagValues with
  | (parse_ok, argv₁, flags) =>
    match parse_ok, sys.InitMain usage argv₁ with
    | true, [_, input_file] =>
      finish (RealMain env input_format output_format input_file flags.output_file
        flags.input_format flags.output_format)
    | _, _ => (.aborted, [.checkFailed "parse_ok && argc == 2" ("\n" ++ usage)])

/-! ## A concrete set of collaborators

Small stand-ins on which the definitions can be evaluated: a module is its
name, its structured record is the same name. -/

/-- A format parser for the input names of the flag's usage text. -/
def sampleParseInput (text : String) : Except String InputFormat :=
  if text = "text" then .ok .kText
  else if text = "proto_text" then .ok .kProtoText
  else if text = "proto_binary" then .ok .kProtoBinary
  else if text = "snapshot_proto_binary" then .ok .kSnapshotProtoBinary
  else .error "unknown value for enumeration"

/-- A format parser for the output names of the flag's usage text. -/
def sampleParseOutput (text : String) : Except String OutputFormat :=
  if text = "text" then .ok .kText
  else if text = "proto_text" then .ok .kProtoText
  else if text = "proto_binary" then .ok .kProtoBinary
  else .error "unknown value for enumeration"

/-- Sample collaborators: the files `add.hlo` and `odd.hlo` load, any other
path does not; the record of `odd` has no text form; the directory `/ro` is
not writable. -/
def sample : Collaborators String String where
  AbslParseFlagInput := sampleParseInput
  AbslParseFlagOutput := sampleParseOutput
  LoadHloModuleAndArguments := fun input_file _ =>
    if input_file = "add.hlo" then .ok "add"
    else if input_file = "odd.hlo" then .ok "odd"
    else .error { raw_code := 5, message := "file not found" }
  ToString := fun module => "HloModule " ++ module
  MakeHloProto := fun module => module
  PrintToString := fun proto => if proto = "odd" then none else some ("name: " ++ proto)
  SerializeAsString := fun proto => "\n\x03" ++ proto
  WriteStringToFile := fun fname _ =>
    if fname = "/ro/out.pb" then { raw_code := 7, message := "permission denied" }
    else OkStatus

/-- The flag settings the sample bootstrap knows: the argument and the flag
variables after it. -/
def sampleSetting (arg : String) (flags : FlagValues) : Option FlagValues :=
  if arg = "--output=out.pb" then some { flags with output_file := "out.pb" }
  else if arg = "--input_format=proto_text" then some { flags with input_format := "proto_text" }
  else if arg = "--output_format=proto_binary" then
    some { flags with output_format := "proto_binary" }
  else if arg = "--output_format=not_a_format" then
    some { flags with output_format := "not_a_format" }
  else none

/-- The sample bootstrap's pass over the arguments that follow the program
name: a known flag setting is applied and removed, anything else is kept. -/
def sampleScan : List String → FlagValues → List String × FlagValues
  | [], flags => ([], flags)
  | arg :: rest, flags =>
    match sampleSetting arg flags with
    | some flags₁ => sampleScan rest flags₁
    | none => ((sampleScan rest flags).1.cons arg, (sampleScan rest flags).2)

/-- A sample bootstrap: flag parsing always succeeds and `InitMain` leaves the
argument vector as it is. -/
def sampleBootstrap : Bootstrap where
  Usage := fun argv0 _ => "usage: " ++ argv0 ++ " [flags] <input_file>"
  Parse := fun argv _ init =>
    match argv with
    | [] => (true, [], init)
    | argv0 :: args => (true, argv0 :: (sampleScan args init).1, (sampleScan args init).2)
  InitMain := fun _ argv => argv


/-! ## Auxiliary facts about the stages of `RealMain` -/

section Stages
variable {Module Proto : Type} (env : Collaborators Module Proto)

theorem filter_eq_nil_of_forall (p : Event → Bool) (t : List Event)
    (h : ∀ ev ∈ t, p ev = false) : t.filter p = [] := by
  induction t with
  | nil => rfl
  | cons a t ih =>
    have ha : p a = false := h a (List.mem_cons_self a t)
    have ht : ∀ ev ∈ t, p ev = false := fun ev hev => h ev (List.mem_cons_of_mem a hev)
    simp [List.filter, ha, ih ht]

theorem isLoad_of_isParse (ev : Event) (h : ev.isParse = true) : ev.isLoad = false := by
  cases ev <;> simp_all [Event.isParse, Event.isLoad]

theorem isEncoder_of_isParse (ev : Event) (h : ev.isParse = true) : ev.isEncoder = false := by
  cases ev <;> simp_all [Event.isParse, Event.isEncoder]

theorem isStdout_of_isParse (ev : Event) (h : ev.isParse = true) : ev.isStdout = false := by
  cases ev <;> simp_all [Event.isParse, Event.isStdout]

theorem isFileWrite_of_isParse (ev : Event) (h : ev.isParse = true) :
    ev.isFileWrite = false := by
  cases ev <;> simp_all [Event.isParse, Event.isFileWrite]

theorem filter_isLoad_parse (t : List Event) (h : ∀ ev ∈ t, ev.isParse = true) :
    t.filter Event.isLoad = [] :=
  filter_eq_nil_of_forall _ t (fun ev hev => isLoad_of_isParse ev (h ev hev))

theorem filter_isEncoder_parse (t : List Event) (h : ∀ ev ∈ t, ev.isParse = true) :
    t.filter Event.isEncoder = [] :=
  filter_eq_nil_of_forall _ t (fun ev hev => isEncoder_of_isParse ev (h ev hev))

theorem filter_isStdout_parse (t : List Event) (h : ∀ ev ∈ t, ev.isParse = true) :
    t.filter Event.isStdout = [] :=
  filter_eq_nil_of_forall _ t (fun ev hev => isStdout_of_isParse ev (h ev hev))

theorem filter_isFileWrite_parse (t : List Event) (h : ∀ ev ∈ t, ev.isParse = true) :
    t.filter Event.isFileWrite = [] :=
  filter_eq_nil_of_forall _ t (fun ev hev => isFileWrite_of_isParse ev (h ev hev))

theorem resolveInputFormat_trace (input_format : EnumObject InputFormat)
    (input_format_str : String) :
    ∀ ev ∈ (resolveInputFormat env input_format input_format_str).2, ev.isParse = true := by
  unfold resolveInputFormat
  split
  · simp
  · split <;> simp [Event.isParse]

theorem resolveOutputFormat_trace (output_format : EnumObject OutputFormat)
    (output_format_str : String) :
    ∀ ev ∈ (resolveOutputFormat env output_format output_format_str).2, ev.isParse = true := by
  unfold resolveOutputFormat
  split
  · simp
  · split <;> simp [Event.isParse]

/-- The trace of the `switch`: the one event of the branch taken, or nothing
when no `case` label matches. -/
theorem encode_trace (module : Module) (output_format : EnumObject OutputFormat) :
    (encode env module output_format).2 =
      match output_format with
      | .named .kText => [.ToString]
      | .named .kProtoText => [.PrintToString]
      | .named .kProtoBinary => [.AppendToString]
      | .unnamed => [] := by
  unfold encode
  split
  · rfl
  · split <;> rfl
  · rfl
  · rfl

theorem encode_trace_isEncoder (module : Module) (output_format : EnumObject OutputFormat) :
    ∀ ev ∈ (encode env module output_format).2, ev.isEncoder = true := by
  rw [encode_trace]
  split <;> simp [Event.isEncoder]

/-- The shape of a run of the stages before the sink: the input format is
rejected, or the output format is rejected, or both formats are resolved and
the loader is called. -/
theorem RealMain_payload_cases (input_format : EnumObject InputFormat)
    (output_format : EnumObject OutputFormat)
    (input_file input_format_str output_format_str : String) :
    (∃ e, input_format_str ≠ "" ∧ env.AbslParseFlagInput input_format_str = .error e ∧
      RealMain_payload env input_format output_format input_file input_format_str
          output_format_str
        = (.error (InternalError ("Failed parsing input format: " ++ e)),
            [.AbslParseFlagInput input_format_str]))
    ∨ (∃ e fi t, (∀ ev ∈ t, Event.isParse ev = true) ∧
      (resolveInputFormat env input_format input_format_str).1 = .ok fi ∧
      output_format_str ≠ "" ∧ env.AbslParseFlagOutput output_format_str = .error e ∧
      RealMain_payload env input_format output_format input_file input_format_str
          output_format_str
        = (.error (InternalError ("Failed parsing output format: " ++ e)), t))
    ∨ (∃ fi fo t, (∀ ev ∈ t, Event.isParse ev = true) ∧
      (resolveInputFormat env input_format input_format_str).1 = .ok fi ∧
      (resolveOutputFormat env output_format output_format_str).1 = .ok fo ∧
      RealMain_payload env input_format output_format input_file input_format_str
          output_format_str
        = match env.LoadHloModuleAndArguments input_file fi with
          | .error st => (.error st, t ++ [.LoadHloModuleAndArguments input_file fi])
          | .ok module =>
            ((encode env module fo).1,
              t ++ [.LoadHloModuleAndArguments input_file fi] ++ (encode env module fo).2)) := by
  have h₁ := resolveInputFormat_trace env input_format input_format_str
  have h₂ := resolveOutputFormat_trace env output_format output_format_str
  unfold RealMain_payload
  rcases hri : resolveInputFormat env input_format input_format_str with ⟨r₁, t₁⟩
  rcases hro : resolveOutputFormat env output_format output_format_str with ⟨r₂, t₂⟩
  rw [hri] at h₁
  rw [hro] at h₂
  have h₁₂ : ∀ ev ∈ t₁ ++ t₂, Event.isParse ev = true := by
    intro ev hev
    rcases List.mem_append.1 hev with hev | hev
    · exact h₁ ev hev
    · exact h₂ ev hev
  cases r₁ with
  | error e =>
    left
    refine ⟨e, ?_⟩
    unfold resolveInputFormat at hri
    split at hri
    · simp at hri
    · split at hri <;> simp_all
  | ok fi =>
    cases r₂ with
    | error e =>
      right; left
      refine ⟨e, fi, t₁ ++ t₂, h₁₂, rfl, ?_⟩
      unfold resolveOutputFormat at hro
      split at hro
      · simp at hro
      · split at hro <;> simp_all
    | ok fo =>
      right; right
      exact ⟨fi, fo, t₁ ++ t₂, h₁₂, rfl, rfl, rfl⟩

end Stages

section Sink
variable {Module Proto : Type} (env : Collaborators Module Proto)

theorem RealMain_of_payload_error (input_format : EnumObject InputFormat)
    (output_format : EnumObject OutputFormat)
    (input_file output_file input_format_str output_format_str : String)
    (st : Status) (tr : List Event)
    (h : RealMain_payload env input_format output_format input_file input_format_str
      output_format_str = (.error st, tr)) :
    RealMain env input_format output_format input_file output_file input_format_str
      output_format_str = { status := st, trace := tr } := by
  unfold RealMain
  rw [h]

theorem RealMain_of_payload_ok (input_format : EnumObject InputFormat)
    (output_format : EnumObject OutputFormat)
    (input_file output_file input_format_str output_format_str : String)
    (result : String) (tr : List Event)
    (h : RealMain_payload env input_format output_format input_file input_format_str
      output_format_str = (.ok result, tr)) :
    RealMain env input_format output_format input_file output_file input_format_str
      output_format_str
      = { status := if output_file = "-" then OkStatus
            else env.WriteStringToFile output_file result,
          trace := tr ++ [sinkEvent output_file result] } := by
  unfold RealMain sinkEvent
  rw [h]
  by_cases hd : output_file = "-" <;> simp [hd]

end Sink

section BeforeSink
variable {Module Proto : Type} (env : Collaborators Module Proto)

/-- The stages before the sink write nothing: their trace holds parser calls,
the loader call and encoder calls only. -/
theorem RealMain_payload_trace (input_format : EnumObject InputFormat)
    (output_format : EnumObject OutputFormat)
    (input_file input_format_str output_format_str : String) :
    ∀ ev ∈ (RealMain_payload env input_format output_format input_file input_format_str
      output_format_str).2, ev.isStdout = false ∧ ev.isFileWrite = false := by
  have hparse : ∀ t : List Event, (∀ ev ∈ t, Event.isParse ev = true) →
      ∀ ev ∈ t, ev.isStdout = false ∧ ev.isFileWrite = false :=
    fun t ht ev hev => ⟨isStdout_of_isParse ev (ht ev hev), isFileWrite_of_isParse ev (ht ev hev)⟩
  rcases RealMain_payload_cases env input_format output_format input_file input_format_str
      output_format_str with ⟨e, _, _, hp⟩ | ⟨e, _, t, ht, _, _, _, hp⟩ |
      ⟨fi, fo, t, ht, _, _, hp⟩
  · rw [hp]
    intro ev hev
    simp at hev
    subst hev
    exact ⟨rfl, rfl⟩
  · rw [hp]
    exact hparse t ht
  · rw [hp]
    cases hl : env.LoadHloModuleAndArguments input_file fi with
    | error st =>
      intro ev hev
      rcases List.mem_append.1 hev with h | h
      · exact hparse t ht ev h
      · simp at h
        subst h
        exact ⟨rfl, rfl⟩
    | ok module =>
      intro ev hev
      rcases List.mem_append.1 hev with h | h
      · rcases List.mem_append.1 h with h | h
        · exact hparse t ht ev h
        · simp at h
          subst h
          exact ⟨rfl, rfl⟩
      · have := encode_trace_isEncoder env module fo ev h
        cases ev <;> simp_all [Event.isEncoder, Event.isStdout, Event.isFileWrite]

theorem RealMain_payload_eq (input_format : EnumObject InputFormat)
    (output_format : EnumObject OutputFormat)
    (input_file input_format_str output_format_str : String) (r : Except Status String)
    (h : (RealMain_payload env input_format output_format input_file input_format_str
      output_format_str).1 = r) :
    RealMain_payload env input_format output_format input_file input_format_str
      output_format_str
      = (r, (RealMain_payload env input_format output_format input_file input_format_str
          output_format_str).2) := by
  rw [← h]

end BeforeSink

/-! ## The format-conversion contract -/

/-- C4. When both formats are resolved (each token is empty or accepted by the
parser), `fi` being the resolved input format, and the loader fails on
`input_file` and `fi` with the status `st`, `RealMain` returns exactly `st`;
the loader was called once, on `input_file` and `fi`; no encoder branch runs
and nothing is written to standard output or to a file. -/
theorem RealMain_load_failure {Module Proto : Type} (env : Collaborators Module Proto)
    (input_format : EnumObject InputFormat) (output_format : EnumObject OutputFormat)
    (input_file output_file input_format_str output_format_str : String)
    (fi : EnumObject InputFormat) (fo : EnumObject OutputFormat) (st : Status)
    (hfi : (resolveInputFormat env input_format input_format_str).1 = .ok fi)
    (hfo : (resolveOutputFormat env output_format output_format_str).1 = .ok fo)
    (hload : env.LoadHloModuleAndArguments input_file fi = .error st) :
    (RealMain env input_format output_format input_file output_file input_format_str
        output_format_str).status = st
    ∧ (RealMain env input_format output_format input_file output_file input_format_str
        output_format_str).trace.filter Event.isLoad
        = [.LoadHloModuleAndArguments input_file fi]
    ∧ (RealMain env input_format output_format input_file output_file input_format_str
        output_format_str).trace.filter Event.isEncoder = []
    ∧ (RealMain env input_format output_format input_file output_file input_format_str
        output_format_str).trace.filter Event.isStdout = []
    ∧ (RealMain env input_format output_format input_file output_file input_format_str
        output_format_str).trace.filter Event.isFileWrite = [] := by
  rcases RealMain_payload_cases env input_format output_format input_file input_format_str
      output_format_str with ⟨e, hne, hrej, _⟩ | ⟨e, _, t, _, _, hne, hrej, _⟩ |
      ⟨fi₁, fo₁, t, ht, hfi₁, _, hp⟩
  · simp [resolveInputFormat, hne, hrej] at hfi
  · simp [resolveOutputFormat, hne, hrej] at hfo
  · rw [hfi₁] at hfi
    cases hfi
    rw [hload] at hp
    rw [RealMain_of_payload_error env _ _ _ output_file _ _ _ _ hp]
    simp [List.filter_append, filter_isLoad_parse t ht, filter_isEncoder_parse t ht,
      filter_isStdout_parse t ht, filter_isFileWrite_parse t ht, Event.isLoad,
      Event.isEncoder, Event.isStdout, Event.isFileWrite]

/-- C6. A run that reaches the sink with payload `payload` (the stages before
line 71 end with `result = payload`) and whose destination token is `"-"`
writes exactly `payload` to standard output, after what the earlier stages
did and as its only write; no file write is issued; and `RealMain` returns
`OkStatus`. -/
theorem RealMain_stdout_sink {Module Proto : Type} (env : Collaborators Module Proto)
    (input_format : EnumObject InputFormat) (output_format : EnumObject OutputFormat)
    (input_file input_format_str output_format_str payload : String)
    (hreach : (RealMain_payload env input_format output_format input_file input_format_str
      output_format_str).1 = .ok payload) :
    (RealMain env input_format output_format input_file "-" input_format_str
        output_format_str).status = OkStatus
    ∧ (RealMain env input_format output_format input_file "-" input_format_str
        output_format_str).trace
        = (RealMain_payload env input_format output_format input_file input_format_str
            output_format_str).2 ++ [.cout payload]
    ∧ (RealMain env input_format output_format input_file "-" input_format_str
        output_format_str).trace.filter Event.isStdout = [.cout payload]
    ∧ (RealMain env input_format output_format input_file "-" input_format_str
        output_format_str).trace.filter Event.isFileWrite = [] := by
  have htr := RealMain_payload_trace env input_format output_format input_file
    input_format_str output_format_str
  have h₁ := filter_eq_nil_of_forall Event.isStdout _ (fun ev hev => (htr ev hev).1)
  have h₂ := filter_eq_nil_of_forall Event.isFileWrite _ (fun ev hev => (htr ev hev).2)
  rw [RealMain_of_payload_ok env _ _ _ "-" _ _ _ _ (RealMain_payload_eq env _ _ _ _ _ _ hreach)]
  simp [sinkEvent, List.filter_append, h₁, h₂, Event.isStdout, Event.isFileWrite]

/-- C7. A run that reaches the sink with payload `payload` and whose
destination token `output_file` is not `"-"` issues exactly one file write,
`WriteStringToFile output_file payload`; writes nothing to standard output;
and returns exactly the status of that write, so it fails if and only if the
write fails. -/
theorem RealMain_file_sink {Module Proto : Type} (env : Collaborators Module Proto)
    (input_format : EnumObject InputFormat) (output_format : EnumObject OutputFormat)
    (input_file output_file input_format_str output_format_str payload : String)
    (hreach : (RealMain_payload env input_format output_format input_file input_format_str
      output_format_str).1 = .ok payload)
    (hdest : output_file ≠ "-") :
    (RealMain env input_format output_format input_file output_file input_format_str
        output_format_str).status = env.WriteStringToFile output_file payload
    ∧ (RealMain env input_format output_format input_file output_file input_format_str
        output_format_str).trace.filter Event.isFileWrite
        = [.WriteStringToFile output_file payload]
    ∧ (RealMain env input_format output_format input_file output_file input_format_str
        output_format_str).trace.filter Event.isStdout = []
    ∧ ((RealMain env input_format output_format input_file output_file input_format_str
        output_format_str).status.ok = false
        ↔ (env.WriteStringToFile output_file payload).ok = false) := by
  have htr := RealMain_payload_trace env input_format output_format input_file
    input_format_str output_format_str
  have h₁ := filter_eq_nil_of_forall Event.isStdout _ (fun ev hev => (htr ev hev).1)
  have h₂ := filter_eq_nil_of_forall Event.isFileWrite _ (fun ev hev => (htr ev hev).2)
  rw [RealMain_of_payload_ok env _ _ _ output_file _ _ _ _
    (RealMain_payload_eq env _ _ _ _ _ _ hreach)]
  simp [sinkEvent, hdest, List.filter_append, h₁, h₂, Event.isStdout, Event.isFileWrite]

/-- C8. When `main` reaches `RealMain` (flag parsing succeeded and two
arguments remain) and `RealMain` ends as `run`, `main` returns the raw code of
`run.status`: the value is `0` exactly when `run.status` is OK; when it is not
OK the value is non-zero and the last thing done before returning is to log
`run.status.message` as an error; when it is OK nothing is logged. -/
theorem main_exit_status {Module Proto : Type} (env : Collaborators Module Proto)
    (sys : Bootstrap)
    (input_format : EnumObject InputFormat) (output_format : EnumObject OutputFormat)
    (argv0 : String) (args argv₁ : List String) (flags : FlagValues)
    (a0 input_file : String) (run : Outcome)
    (hparse : sys.Parse (argv0 :: args) flag_list initialFlagValues = (true, argv₁, flags))
    (hinit : sys.InitMain (kUsageAndFlags sys argv0) argv₁ = [a0, input_file])
    (hrun : RealMain env input_format output_format input_file flags.output_file
      flags.input_format flags.output_format = run) :
    (main env sys input_format output_format argv0 args).1 = .returned run.status.raw_code
    ∧ ((main env sys input_format output_format argv0 args).1 = .returned 0
        ↔ run.status.ok = true)
    ∧ (run.status.ok = false →
        run.status.raw_code ≠ 0
        ∧ (main env sys input_format output_format argv0 args).2
            = run.trace ++ [.logError run.status.message])
    ∧ (run.status.ok = true →
        (main env sys input_format output_format argv0 args).2 = run.trace) := by
  have hmain : main env sys input_format output_format argv0 args = finish run := by
    simp only [main, hparse, hinit, hrun]
  rw [hmain]
  unfold finish
  by_cases hok : run.status.ok = true
  · have hcode : run.status.raw_code = 0 := by simpa [Status.ok] using hok
    simp [hok, hcode]
  · have hcode : run.status.raw_code ≠ 0 := by simpa [Status.ok] using hok
    simp [hok, hcode]

/-- C10. `main` calls `RealMain` only when `Flags::Parse` returned `true` and
exactly two arguments (the program name and one positional argument) remain
after `Flags::Parse` and `InitMain`.  Otherwise the `CHECK` fails: the usage
text is printed and the process aborts with nothing loaded, encoded or
written.  When `main` does proceed, the remaining positional argument is the
`input_file` of `RealMain`, called with the three flag values. -/
theorem main_requires_one_positional {Module Proto : Type}
    (env : Collaborators Module Proto) (sys : Bootstrap)
    (input_format : EnumObject InputFormat) (output_format : EnumObject OutputFormat)
    (argv0 : String) (args argv₁ argv₂ : List String) (parse_ok : Bool) (flags : FlagValues)
    (hparse : sys.Parse (argv0 :: args) flag_list initialFlagValues
      = (parse_ok, argv₁, flags))
    (hinit : sys.InitMain (kUsageAndFlags sys argv0) argv₁ = argv₂) :
    (¬ (parse_ok = true ∧ argv₂.length = 2) →
      main env sys input_format output_format argv0 args
        = (.aborted,
            [.checkFailed "parse_ok && argc == 2" ("\n" ++ kUsageAndFlags sys argv0)]))
    ∧ (parse_ok = true → argv₂.length = 2 →
      ∃ a0 input_file, argv₂ = [a0, input_file]
        ∧ main env sys input_format output_format argv0 args
          = finish (RealMain env input_format output_format input_file flags.output_file
              flags.input_format flags.output_format))
    ∧ (∀ ev ∈ (main env sys input_format output_format argv0 args).2,
        (ev.isParse = true ∨ ev.isLoad = true ∨ ev.isEncoder = true ∨ ev.isSink = true) →
        parse_ok = true ∧ argv₂.length = 2) := by
  have habort : ¬ (parse_ok = true ∧ argv₂.length = 2) →
      main env sys input_format output_format argv0 args
        = (.aborted,
            [.checkFailed "parse_ok && argc == 2" ("\n" ++ kUsageAndFlags sys argv0)]) := by
    intro h
    simp only [main, hparse, hinit]
    split
    · exact absurd ⟨rfl, rfl⟩ h
    · rfl
  refine ⟨habort, ?_, ?_⟩
  · intro hok hlen
    match argv₂, hlen, hinit with
    | [a0, input_file], _, hinit =>
      refine ⟨a0, input_file, rfl, ?_⟩
      subst hok
      simp only [main, hparse, hinit]
  · intro ev hev hkind
    by_contra h
    rw [habort h] at hev
    simp at hev
    subst hev
    simp [Event.isParse, Event.isLoad, Event.isEncoder, Event.isSink, Event.isStdout,
      Event.isFileWrite] at hkind

/-! ## The contract on the sample collaborators -/

/-- C2 at the failing input: `RealMain("add.hlo", "-", "", "")`.  With both
tokens empty neither local is assigned.  When `input_format` happens to hold
`kProtoBinary` and `output_format` a value no enumerator names, the loader is
called with `kProtoBinary`, no encoder branch runs and the empty string is
written, where the text rendering is `"HloModule add"`; when `output_format`
happens to hold `kProtoBinary` the binary encoding is written. -/
theorem RealMain_empty_tokens_read_unassigned_locals :
    RealMain sample (.named .kProtoBinary) .unnamed "add.hlo" "-" "" ""
      = { status := OkStatus,
          trace := [.LoadHloModuleAndArguments "add.hlo" (.named .kProtoBinary), .cout ""] }
    ∧ RealMain sample (.named .kSnapshotProtoBinary) (.named .kProtoBinary) "add.hlo" "-" "" ""
      = { status := OkStatus,
          trace := [.LoadHloModuleAndArguments "add.hlo" (.named .kSnapshotProtoBinary),
            .AppendToString, .cout "\n\x03add"] }
    ∧ sample.ToString "add" = "HloModule add" := by
  decide

/-- C4 on the sample collaborators: the file `missing.hlo` does not load, and
neither does the empty path with both format tokens empty. -/
theorem RealMain_load_failure_witness :
    ((resolveInputFormat sample .unnamed "proto_text").1 = .ok (.named .kProtoText)
      ∧ (resolveOutputFormat sample .unnamed "proto_binary").1 = .ok (.named .kProtoBinary)
      ∧ sample.LoadHloModuleAndArguments "missing.hlo" (.named .kProtoText)
          = .error { raw_code := 5, message := "file not found" })
    ∧ ((RealMain sample .unnamed .unnamed "missing.hlo" "out.pb" "proto_text"
          "proto_binary").status = { raw_code := 5, message := "file not found" }
      ∧ (RealMain sample .unnamed .unnamed "missing.hlo" "out.pb" "proto_text"
          "proto_binary").trace.filter Event.isLoad
          = [.LoadHloModuleAndArguments "missing.hlo" (.named .kProtoText)]
      ∧ (RealMain sample .unnamed .unnamed "missing.hlo" "out.pb" "proto_text"
          "proto_binary").trace.filter Event.isEncoder = []
      ∧ (RealMain sample .unnamed .unnamed "missing.hlo" "out.pb" "proto_text"
          "proto_binary").trace.filter Event.isStdout = []
      ∧ (RealMain sample .unnamed .unnamed "missing.hlo" "out.pb" "proto_text"
          "proto_binary").trace.filter Event.isFileWrite = [])
    ∧ (RealMain sample (.named .kText) (.named .kText) "" "out.pb" "" "").status
        = { raw_code := 5, message := "file not found" } :=
  ⟨⟨rfl, rfl, rfl⟩,
    RealMain_load_failure sample .unnamed .unnamed "missing.hlo" "out.pb" "proto_text"
      "proto_binary" (.named .kProtoText) (.named .kProtoBinary)
      { raw_code := 5, message := "file not found" } rfl rfl rfl,
    (RealMain_load_failure sample (.named .kText) (.named .kText) "" "out.pb" "" ""
      (.named .kText) (.named .kText) { raw_code := 5, message := "file not found" }
      rfl rfl rfl).1⟩

/-- C6 on the sample collaborators: `add.hlo` rendered as text to standard
output. -/
theorem RealMain_stdout_sink_witness :
    (RealMain_payload sample .unnamed .unnamed "add.hlo" "text" "text").1
        = .ok "HloModule add"
    ∧ (RealMain sample .unnamed .unnamed "add.hlo" "-" "text" "text").status = OkStatus
    ∧ (RealMain sample .unnamed .unnamed "add.hlo" "-" "text" "text").trace
        = (RealMain_payload sample .unnamed .unnamed "add.hlo" "text" "text").2
            ++ [.cout "HloModule add"]
    ∧ (RealMain sample .unnamed .unnamed "add.hlo" "-" "text" "text").trace.filter
        Event.isStdout = [.cout "HloModule add"]
    ∧ (RealMain sample .unnamed .unnamed "add.hlo" "-" "text" "text").trace.filter
        Event.isFileWrite = [] :=
  ⟨rfl, RealMain_stdout_sink sample .unnamed .unnamed "add.hlo" "text" "text" "HloModule add"
    rfl⟩

/-- C7 on the sample collaborators: `add.hlo` encoded in binary to a file in
a directory that is not writable. -/
theorem RealMain_file_sink_witness :
    ((RealMain_payload sample .unnamed .unnamed "add.hlo" "text" "proto_binary").1
        = .ok "\n\x03add"
      ∧ "/ro/out.pb" ≠ "-")
    ∧ (RealMain sample .unnamed .unnamed "add.hlo" "/ro/out.pb" "text" "proto_binary").status
        = sample.WriteStringToFile "/ro/out.pb" "\n\x03add"
    ∧ (RealMain sample .unnamed .unnamed "add.hlo" "/ro/out.pb" "text"
        "proto_binary").trace.filter Event.isFileWrite
        = [.WriteStringToFile "/ro/out.pb" "\n\x03add"]
    ∧ (RealMain sample .unnamed .unnamed "add.hlo" "/ro/out.pb" "text"
        "proto_binary").trace.filter Event.isStdout = []
    ∧ ((RealMain sample .unnamed .unnamed "add.hlo" "/ro/out.pb" "text"
        "proto_binary").status.ok = false
        ↔ (sample.WriteStringToFile "/ro/out.pb" "\n\x03add").ok = false) :=
  ⟨⟨rfl, by decide⟩,
    RealMain_file_sink sample .unnamed .unnamed "add.hlo" "/ro/out.pb" "text" "proto_binary"
      "\n\x03add" rfl (by decide)⟩

/-- C8 on the sample collaborators and bootstrap: the command line
`convert --output_format=not_a_format add.hlo`. -/
theorem main_exit_status_witness :
    (sampleBootstrap.Parse ["convert", "--output_format=not_a_format", "add.hlo"] flag_list
          initialFlagValues
        = (true, ["convert", "add.hlo"],
            { output_file := "-", input_format := "text", output_format := "not_a_format" })
      ∧ sampleBootstrap.InitMain (kUsageAndFlags sampleBootstrap "convert")
          ["convert", "add.hlo"] = ["convert", "add.hlo"]
      ∧ RealMain sample .unnamed .unnamed "add.hlo" "-" "text" "not_a_format"
        = { status :=
              InternalError "Failed parsing output format: unknown value for enumeration",
            trace := [.AbslParseFlagInput "text", .AbslParseFlagOutput "not_a_format"] })
    ∧ (main sample sampleBootstrap .unnamed .unnamed "convert"
          ["--output_format=not_a_format", "add.hlo"]).1 = .returned 13
    ∧ ((main sample sampleBootstrap .unnamed .unnamed "convert"
          ["--output_format=not_a_format", "add.hlo"]).1 = .returned 0
        ↔ (InternalError
            "Failed parsing output format: unknown value for enumeration").ok = true)
    ∧ ((InternalError "Failed parsing output format: unknown value for enumeration").ok = false →
        (13 : Int) ≠ 0
        ∧ (main sample sampleBootstrap .unnamed .unnamed "convert"
            ["--output_format=not_a_format", "add.hlo"]).2
          = [.AbslParseFlagInput "text", .AbslParseFlagOutput "not_a_format"]
            ++ [.logError "Failed parsing output format: unknown value for enumeration"])
    ∧ ((InternalError "Failed parsing output format: unknown value for enumeration").ok = true →
        (main sample sampleBootstrap .unnamed .unnamed "convert"
            ["--output_format=not_a_format", "add.hlo"]).2
          = [.AbslParseFlagInput "text", .AbslParseFlagOutput "not_a_format"]) :=
  ⟨⟨rfl, rfl, by decide⟩,
    main_exit_status sample sampleBootstrap .unnamed .unnamed "convert"
      ["--output_format=not_a_format", "add.hlo"] ["convert", "add.hlo"]
      { output_file := "-", input_format := "text", output_format := "not_a_format" }
      "convert" "add.hlo"
      { status := InternalError "Failed parsing output format: unknown value for enumeration",
        trace := [.AbslParseFlagInput "text", .AbslParseFlagOutput "not_a_format"] }
      rfl rfl (by decide)⟩

/-- C10 on the sample collaborators and bootstrap: the command line
`convert --output=out.pb`, with no positional argument. -/
theorem main_requires_one_positional_witness :
    (sampleBootstrap.Parse ["convert", "--output=out.pb"] flag_list initialFlagValues
        = (true, ["convert"],
            { output_file := "out.pb", input_format := "text", output_format := "text" })
      ∧ sampleBootstrap.InitMain (kUsageAndFlags sampleBootstrap "convert") ["convert"]
        = ["convert"]
      ∧ ¬ (true = true ∧ ["convert"].length = 2))
    ∧ main sample sampleBootstrap .unnamed .unnamed "convert" ["--output=out.pb"]
      = (.aborted,
          [.checkFailed "parse_ok && argc == 2"
            ("\n" ++ kUsageAndFlags sampleBootstrap "convert")]) :=
  ⟨⟨rfl, rfl, by decide⟩,
    (main_requires_one_positional sample sampleBootstrap .unnamed .unnamed "convert"
      ["--output=out.pb"] ["convert"] ["convert"] true
      { output_file := "out.pb", input_format := "text", output_format := "text" }
      rfl rfl).1 (by decide)⟩

end Convert
